import Mathlib

/-!
Verification of the wine-analysis dashboard script (ploty_dashboard.py).

The script loads the wine dataset into a pandas DataFrame (13 numeric
feature columns plus one categorical column "WineType"), derives a
per-category mean table with groupby/mean, and builds two plotly express
figures: a scatter chart over two selected feature columns and a grouped
bar chart over a selected list of feature columns.

The embedding models a DataFrame as a list of rows sharing a schema of
numeric feature column names plus the categorical "WineType" column.
Numeric cells are rationals. The plotly express calls are modelled by
their observable content: point lists, series lists, titles, color tags
and the layout height hint; a figure build that plotly would reject with
an exception (a field name that is not a column of the frame) is an
Except.error, surfaced to the caller.
-/

namespace PlotyDashboard

/-- A cell of the DataFrame: numeric feature values are rationals, the
WineType column holds string labels. -/
inductive Cell where
  | num (q : ℚ)
  | str (s : String)
deriving DecidableEq

/-- One record of the working table: the numeric feature values, aligned
with the list of feature column names of the surrounding frame, and the
categorical WineType label. -/
structure Row where
  feats : List ℚ
  wineType : String
deriving DecidableEq

/-- A DataFrame as built by the script: a schema of numeric feature
column names (the columns of `wine_dataset.data`) plus the appended
"WineType" column, and an ordered list of rows. -/
structure WineDF where
  featureNames : List String
  rows : List Row
deriving DecidableEq

/-- The raw dataset as handed over by the external dataset source
(sklearn `load_wine`): numeric rows, an integer target per row, and the
integer-to-label mapping `target_names`. -/
structure RawDataset where
  feature_names : List String
  data : List (List ℚ)
  target : List Nat
  target_names : List String
deriving DecidableEq

/-- Embedding of `load_wine_data_as_dataframe`: builds the frame from
`wine_dataset.data` with columns `wine_dataset.feature_names`, then
appends the column `WineType` holding `target_names[t]` for each target
index `t`. -/
def load_wine_data_as_dataframe (w : RawDataset) : WineDF :=
  { featureNames := w.feature_names
    rows := List.zipWith
      (fun d t => { feats := d, wineType := w.target_names.getD t "" })
      w.data w.target }

/-- Embedding of `ingredients = wine_df.drop(columns=["WineType"]).columns`:
the numeric feature column names. -/
def ingredients (df : WineDF) : List String :=
  df.featureNames

/-- Column lookup on a row, as pandas does when a chart builder selects a
column by name: the "WineType" column yields the label, a feature column
name yields the numeric value at its schema position. -/
def Row.value (fns : List String) (r : Row) (c : String) : Cell :=
  if c = "WineType" then Cell.str r.wineType
  else Cell.num (r.feats.getD (fns.indexOf c) 0)

/-- Whether a name is a column of the frame ("WineType" or a feature
column); plotly express rejects any other name with an exception. -/
def WineDF.isColumn (df : WineDF) (c : String) : Bool :=
  c = "WineType" || df.featureNames.contains c

/-- The categorical labels present in the frame, first appearance order,
without duplicates. -/
def WineDF.categoryList (df : WineDF) : List String :=
  (df.rows.map Row.wineType).dedup

/-- The group keys in the order pandas `groupby` emits them: sorted
ascending (lexicographic on strings). -/
def WineDF.sortedCategories (df : WineDF) : List String :=
  df.categoryList.insertionSort (fun a b => a ≤ b)

/-- The rows of one `groupby("WineType")` group: exactly the records
carrying the given label. -/
def WineDF.groupRows (df : WineDF) (c : String) : List Row :=
  df.rows.filter (fun r => r.wineType = c)

/-- Arithmetic mean of a list of rationals. -/
def meanOf (xs : List ℚ) : ℚ :=
  xs.sum / xs.length

/-- Embedding of `avg_wine_df = wine_df.groupby("WineType").mean().reset_index()`:
one row per distinct WineType label in sorted key order, each numeric
column replaced by its mean within the group, the label restored as a
column by `reset_index`. -/
def avg_wine_df (df : WineDF) : WineDF :=
  { featureNames := df.featureNames
    rows := df.sortedCategories.map fun c =>
      { wineType := c
        feats := (List.range df.featureNames.length).map fun i =>
          meanOf ((df.groupRows c).map fun r => r.feats.getD i 0) } }

/-- The recoverable error a chart builder surfaces to its caller when a
selected field name is not a column of its frame (plotly express raises,
the hosting framework catches; the process keeps serving). -/
inductive ChartError where
  | invalidField (name : String)
deriving DecidableEq

/-- Observable content of the scatter figure: one point per row of the
frame, the optional per-point category tags produced by the color
encoding, and the title. -/
structure ScatterSpec where
  points : List (Cell × Cell)
  colorTags : Option (List String)
  title : String
deriving DecidableEq

/-- Observable content of the grouped bar figure: the category per group
(the x column), one series per selected field in the given order with one
bar value per category row, the title, and the layout height hint. -/
structure BarSpec where
  categories : List String
  series : List (String × List Cell)
  title : String
  height : Option Nat
deriving DecidableEq

/-- Python `str.capitalize()`: first character uppercased, the rest
lowercased. -/
def pyCapitalize (s : String) : String :=
  match s.data with
  | [] => ""
  | c :: cs => String.mk (c.toUpper :: cs.map Char.toLower)

/-- Capitalization in the words of the spec: only the first character
uppercased, the rest untouched. -/
def capitalizeFirstOnly (s : String) : String :=
  match s.data with
  | [] => ""
  | c :: cs => String.mk (c.toUpper :: cs)

/-- Embedding of `create_scatter_chart`: plots the frame with
`px.scatter(wine_df, x=x_axis, y=y_axis, color="WineType" if color_encode
else None, title=f"{x_axis.capitalize()} vs {y_axis.capitalize()}")`. A
selected name that is not a column of the frame makes plotly raise, which
the embedding returns as an error value. -/
def create_scatter_chart (df : WineDF) (x_axis : String := "alcohol")
    (y_axis : String := "malic_acid") (color_encode : Bool := false) :
    Except ChartError ScatterSpec :=
  if df.isColumn x_axis then
    if df.isColumn y_axis then
      Except.ok
        { points := df.rows.map fun r =>
            (Row.value df.featureNames r x_axis, Row.value df.featureNames r y_axis)
          colorTags :=
            if color_encode then some (df.rows.map Row.wineType) else none
          title := pyCapitalize x_axis ++ " vs " ++ pyCapitalize y_axis }
    else Except.error (ChartError.invalidField y_axis)
  else Except.error (ChartError.invalidField x_axis)

/-- Embedding of `create_bar_chart`: plots the aggregate frame with
`px.bar(avg_wine_df, x="WineType", y=ingredients, title="Avg. Ingredients
per Wine Type")` followed by `update_layout(height=600)`. Wide-form
plotting makes one series per listed column with one value per aggregate
row; a listed name that is not a column makes plotly raise, returned as
an error value; an empty list selects no series and raises nothing. -/
def create_bar_chart (agg : WineDF)
    (ingredientFields : List String := ["alcohol", "malic_acid", "ash"]) :
    Except ChartError BarSpec :=
  match ingredientFields.find? (fun f => ! agg.isColumn f) with
  | some f => Except.error (ChartError.invalidField f)
  | none =>
      Except.ok
        { categories := agg.rows.map Row.wineType
          series := ingredientFields.map fun f =>
            (f, agg.rows.map fun r => Row.value agg.featureNames r f)
          title := "Avg. Ingredients per Wine Type"
          height := some 600 }

/-- Modelled from the spec: the fixed numeric feature names of the wine
dataset delivered by the external dataset source (sklearn `load_wine`),
which is not part of the repository; the spec fixes the dataset and names
alcohol, malic_acid and ash among its ingredients. -/
def wineFeatureNames : List String :=
  ["alcohol", "malic_acid", "ash", "alcalinity_of_ash", "magnesium",
   "total_phenols", "flavanoids", "nonflavanoid_phenols",
   "proanthocyanins", "color_intensity", "hue",
   "od280/od315_of_diluted_wines", "proline"]

/-- Modelled from the spec: the three category labels of the fixed wine
dataset (the layout text of the script names them class_0, class_1,
class_2). -/
def wineTargetNames : List String :=
  ["class_0", "class_1", "class_2"]

/-- A small concrete working table over the fixed schema, used by the
closed witness and counterexample statements. -/
def sampleDF : WineDF :=
  { featureNames := wineFeatureNames
    rows :=
      [ { feats := List.replicate 13 1, wineType := "class_1" },
        { feats := List.replicate 13 2, wineType := "class_0" },
        { feats := List.replicate 13 4, wineType := "class_0" },
        { feats := List.replicate 13 0, wineType := "class_2" } ] }

/-- A small concrete raw dataset, used by the closed witness statement of
the loader claim. -/
def sampleRaw : RawDataset :=
  { feature_names := ["alcohol", "malic_acid"]
    data := [[12, 1], [13, 2], [14, 3]]
    target := [0, 2, 1]
    target_names := wineTargetNames }

/-- The module-level read-only state the script establishes at import
time: the working table and the derived aggregate table. -/
structure DashState where
  wine_df : WineDF
  avg_df : WineDF
deriving DecidableEq

/-- The scatter callback as a state-passing computation: the source
function only reads the module-level frame, so the translated step
returns the state it was given alongside the figure. -/
def run_scatter_callback (st : DashState) (x_axis y_axis : String)
    (color_encode : Bool) : DashState × Except ChartError ScatterSpec :=
  (st, create_scatter_chart st.wine_df x_axis y_axis color_encode)

/-- The bar callback as a state-passing computation: the source function
only reads the module-level aggregate frame. -/
def run_bar_callback (st : DashState) (ingredientFields : List String) :
    DashState × Except ChartError BarSpec :=
  (st, create_bar_chart st.avg_df ingredientFields)

/-! Helper lemmas shared by the claim theorems. -/

/-- The category column of the aggregate frame is exactly the sorted list
of distinct labels the groupby iterates over. -/
theorem avg_rows_map_wineType (df : WineDF) :
    (avg_wine_df df).rows.map Row.wineType = df.sortedCategories := by
  simp only [avg_wine_df, List.map_map, Function.comp_def, List.map_id, List.map_id']

/-- A feature column name is a column of its frame. -/
theorem isColumn_of_mem {df : WineDF} {c : String} (h : c ∈ df.featureNames) :
    df.isColumn c = true := by
  simp [WineDF.isColumn, h]

/-- Indexing a map over a range below the bound evaluates the function. -/
theorem getD_map_range (f : ℕ → ℚ) {n i : ℕ} (h : i < n) (d : ℚ) :
    ((List.range n).map f).getD i d = f i := by
  simp [List.getD_eq_getElem?_getD, List.getElem?_map, List.getElem?_range h]

/-- Python capitalize agrees with first-character-only capitalization on
every name of the fixed ingredient list (they are all lowercase). -/
theorem pyCapitalize_eq_on_wine_fields :
    ∀ x ∈ wineFeatureNames, pyCapitalize x = capitalizeFirstOnly x := by
  decide

/-! Claim theorems. -/

/-- C9: the chart builders never write the module-level state: run as
state-passing computations they return exactly the state they were given,
for every state and every argument selection (value semantics also keeps
the passed field selections unchanged). -/
theorem chart_builders_preserve_state (st : DashState) (x y : String)
    (ce : Bool) (fs : List String) :
    (run_scatter_callback st x y ce).1 = st ∧ (run_bar_callback st fs).1 = st :=
  ⟨rfl, rfl⟩

/-- C10: the aggregate builder orders its rows by category label ascending
in the lexicographic string order (the sorted order of pandas groupby
keys), and its labels are a permutation of the distinct labels of the
working table. -/
theorem avg_wine_df_sorted_by_category (df : WineDF) :
    ((avg_wine_df df).rows.map Row.wineType).Sorted (fun a b => a ≤ b) ∧
    ((avg_wine_df df).rows.map Row.wineType).Perm df.categoryList := by
  rw [avg_rows_map_wineType df]
  exact ⟨List.sorted_insertionSort _ _, List.perm_insertionSort _ _⟩

/-- C8: the chart builders are deterministic: two invocations with equal
arguments over equal frames return equal figures, for both builders. -/
theorem chart_builders_deterministic (df1 df2 agg1 agg2 : WineDF)
    (x1 x2 y1 y2 : String) (ce1 ce2 : Bool) (fs1 fs2 : List String)
    (hdf : df1 = df2) (hx : x1 = x2) (hy : y1 = y2) (hce : ce1 = ce2)
    (hagg : agg1 = agg2) (hfs : fs1 = fs2) :
    create_scatter_chart df1 x1 y1 ce1 = create_scatter_chart df2 x2 y2 ce2 ∧
    create_bar_chart agg1 fs1 = create_bar_chart agg2 fs2 := by
  subst hdf hx hy hce hagg hfs
  exact ⟨rfl, rfl⟩

/-- C8 witness: a concrete double invocation with identical arguments. -/
theorem chart_builders_deterministic_witness :
    create_scatter_chart sampleDF "alcohol" "ash" true =
      create_scatter_chart sampleDF "alcohol" "ash" true ∧
    create_bar_chart (avg_wine_df sampleDF) ["hue"] =
      create_bar_chart (avg_wine_df sampleDF) ["hue"] :=
  chart_builders_deterministic sampleDF sampleDF (avg_wine_df sampleDF)
    (avg_wine_df sampleDF) "alcohol" "alcohol" "ash" "ash" true true
    ["hue"] ["hue"] rfl rfl rfl rfl rfl rfl

/-- C1 (amended): a chart builder surfaces a recoverable invalid-field
error exactly when a selected name is not a column of its frame; a name
outside the ingredient list that is still a column (the category column
"WineType") is accepted, and the empty bar field selection is accepted,
yielding a figure with no bar series. -/
theorem chart_builders_error_iff_not_column (df agg : WineDF) (x y : String)
    (ce : Bool) (fs : List String) :
    ((create_scatter_chart df x y ce).isOk = true ↔
      (df.isColumn x = true ∧ df.isColumn y = true)) ∧
    ((create_bar_chart agg fs).isOk = true ↔ ∀ f ∈ fs, agg.isColumn f = true) ∧
    (create_bar_chart agg []).isOk = true := by
  refine ⟨?_, ?_, rfl⟩
  · cases hx : df.isColumn x with
    | false => simp [create_scatter_chart, hx, Except.isOk, Except.toBool]
    | true =>
      cases hy : df.isColumn y with
      | false => simp [create_scatter_chart, hx, hy, Except.isOk, Except.toBool]
      | true => simp [create_scatter_chart, hx, hy, Except.isOk, Except.toBool]
  · cases hfind : fs.find? (fun f => ! agg.isColumn f) with
    | none =>
        simp only [create_bar_chart, hfind]
        constructor
        · intro _ f hm
          have h1 := List.find?_eq_none.mp hfind f hm
          simpa using h1
        · intro _
          rfl
    | some f =>
        simp only [create_bar_chart, hfind]
        constructor
        · intro h
          simp [Except.isOk, Except.toBool] at h
        · intro hall
          have h1 := List.find?_some hfind
          have h2 := List.mem_of_find?_eq_some hfind
          simp [hall f h2] at h1

/-- C1 counterexample: the name "WineType" lies outside the ingredient
list, yet the scatter builder accepts it without an error, and the bar
builder accepts the empty field selection without an error. -/
theorem scatter_accepts_non_ingredient_column :
    ("WineType" ∉ ingredients sampleDF) ∧
    (create_scatter_chart sampleDF "WineType" "alcohol" false).isOk = true ∧
    (create_bar_chart (avg_wine_df sampleDF) []).isOk = true :=
  ⟨by decide, by decide, by decide⟩

/-- C2: the aggregate table has exactly one row per distinct category
label of the working table (its labels are a duplicate-free permutation
of the distinct labels, so the row counts agree), and for any category
present in the table and any feature column, every aggregate row carrying
that category holds the arithmetic mean (sum divided by count) of that
column over exactly the records with that category. -/
theorem avg_wine_df_rows_are_group_means (df : WineDF) (c : String) (i : ℕ)
    (hc : c ∈ df.categoryList) (hi : i < df.featureNames.length) :
    ((avg_wine_df df).rows.map Row.wineType).Perm df.categoryList ∧
    ((avg_wine_df df).rows.map Row.wineType).Nodup ∧
    (avg_wine_df df).rows.length = df.categoryList.length ∧
    (∃ r ∈ (avg_wine_df df).rows, r.wineType = c) ∧
    ∀ r ∈ (avg_wine_df df).rows, r.wineType = c →
      r.feats.getD i 0 =
        ((df.groupRows c).map fun rr => rr.feats.getD i 0).sum /
          ((df.groupRows c).map fun rr => rr.feats.getD i 0).length := by
  have hmap := avg_rows_map_wineType df
  have hperm : ((avg_wine_df df).rows.map Row.wineType).Perm df.categoryList := by
    rw [hmap]
    exact List.perm_insertionSort _ _
  refine ⟨hperm, ?_, ?_, ?_, ?_⟩
  · exact hperm.nodup_iff.mpr (List.nodup_dedup _)
  · calc (avg_wine_df df).rows.length
        = ((avg_wine_df df).rows.map Row.wineType).length := (List.length_map _ _).symm
      _ = df.categoryList.length := hperm.length_eq
  · have hcm : c ∈ (avg_wine_df df).rows.map Row.wineType := hperm.mem_iff.mpr hc
    obtain ⟨r, hr, hrc⟩ := List.mem_map.mp hcm
    exact ⟨r, hr, hrc⟩
  · intro r hr hrc
    simp only [avg_wine_df, List.mem_map] at hr
    obtain ⟨a, _, heq⟩ := hr
    subst heq
    have hac : a = c := hrc
    subst hac
    rw [show ({ wineType := a
                feats := (List.range df.featureNames.length).map fun j =>
                  meanOf ((df.groupRows a).map fun r => r.feats.getD j 0) } : Row).feats =
          (List.range df.featureNames.length).map fun j =>
            meanOf ((df.groupRows a).map fun r => r.feats.getD j 0) from rfl]
    rw [getD_map_range _ hi]
    rfl

/-- C2 witness: the concrete sample table at category class_0 and the
first feature column. -/
theorem avg_wine_df_rows_are_group_means_witness :
    "class_0" ∈ sampleDF.categoryList ∧ 0 < sampleDF.featureNames.length ∧
    (((avg_wine_df sampleDF).rows.map Row.wineType).Perm sampleDF.categoryList ∧
     ((avg_wine_df sampleDF).rows.map Row.wineType).Nodup ∧
     (avg_wine_df sampleDF).rows.length = sampleDF.categoryList.length ∧
     (∃ r ∈ (avg_wine_df sampleDF).rows, r.wineType = "class_0") ∧
     ∀ r ∈ (avg_wine_df sampleDF).rows, r.wineType = "class_0" →
       r.feats.getD 0 0 =
         ((sampleDF.groupRows "class_0").map fun rr => rr.feats.getD 0 0).sum /
           ((sampleDF.groupRows "class_0").map fun rr => rr.feats.getD 0 0).length) :=
  ⟨by decide, by decide,
    avg_wine_df_rows_are_group_means sampleDF "class_0" 0 (by decide) (by decide)⟩

/-- C3: over the fixed ingredient list the scatter title is exactly the
two raw field names, each with only its first character uppercased,
joined by " vs ". -/
theorem create_scatter_chart_title (rows : List Row) (x y : String)
    (ce : Bool) (hx : x ∈ wineFeatureNames) (hy : y ∈ wineFeatureNames) :
    ∃ spec, create_scatter_chart ⟨wineFeatureNames, rows⟩ x y ce = Except.ok spec ∧
      spec.title = capitalizeFirstOnly x ++ " vs " ++ capitalizeFirstOnly y := by
  have hx1 : WineDF.isColumn ⟨wineFeatureNames, rows⟩ x = true := isColumn_of_mem hx
  have hy1 : WineDF.isColumn ⟨wineFeatureNames, rows⟩ y = true := isColumn_of_mem hy
  refine ⟨{ points := rows.map fun r =>
              (Row.value wineFeatureNames r x, Row.value wineFeatureNames r y)
            colorTags := if ce then some (rows.map Row.wineType) else none
            title := pyCapitalize x ++ " vs " ++ pyCapitalize y }, ?_, ?_⟩
  · simp [create_scatter_chart, hx1, hy1]
  · simp only
    rw [pyCapitalize_eq_on_wine_fields x hx, pyCapitalize_eq_on_wine_fields y hy]

/-- C3 witness: the spec example, alcohol against malic_acid with the
exact title "Alcohol vs Malic_acid". -/
theorem create_scatter_chart_title_witness :
    "alcohol" ∈ wineFeatureNames ∧ "malic_acid" ∈ wineFeatureNames ∧
    ∃ spec, create_scatter_chart ⟨wineFeatureNames, []⟩ "alcohol" "malic_acid" false =
        Except.ok spec ∧
      spec.title = "Alcohol vs Malic_acid" := by
  refine ⟨by decide, by decide, ?_⟩
  obtain ⟨spec, h1, h2⟩ :=
    create_scatter_chart_title [] "alcohol" "malic_acid" false (by decide) (by decide)
  refine ⟨spec, h1, ?_⟩
  rw [h2]
  decide

/-- C4: for any two valid columns and either color setting, the scatter
figure holds one point per record of the working table, at that record's
x-field and y-field values, so its point count equals the row count. -/
theorem create_scatter_chart_point_per_record (df : WineDF) (x y : String)
    (ce : Bool) (hx : df.isColumn x = true) (hy : df.isColumn y = true) :
    ∃ spec, create_scatter_chart df x y ce = Except.ok spec ∧
      spec.points.length = df.rows.length ∧
      spec.points = df.rows.map fun r =>
        (Row.value df.featureNames r x, Row.value df.featureNames r y) := by
  refine ⟨{ points := df.rows.map fun r =>
              (Row.value df.featureNames r x, Row.value df.featureNames r y)
            colorTags := if ce then some (df.rows.map Row.wineType) else none
            title := pyCapitalize x ++ " vs " ++ pyCapitalize y }, ?_, ?_, rfl⟩
  · simp [create_scatter_chart, hx, hy]
  · simp

/-- C4 witness: the concrete sample table with alcohol and malic_acid. -/
theorem create_scatter_chart_point_per_record_witness :
    sampleDF.isColumn "alcohol" = true ∧ sampleDF.isColumn "malic_acid" = true ∧
    ∃ spec, create_scatter_chart sampleDF "alcohol" "malic_acid" true = Except.ok spec ∧
      spec.points.length = sampleDF.rows.length ∧
      spec.points = sampleDF.rows.map fun r =>
        (Row.value sampleDF.featureNames r "alcohol",
         Row.value sampleDF.featureNames r "malic_acid") :=
  ⟨by decide, by decide,
    create_scatter_chart_point_per_record sampleDF "alcohol" "malic_acid" true
      (by decide) (by decide)⟩

/-- C5: for a non-empty selection of ingredient fields the bar builder
returns a figure with the aggregate categories on the horizontal axis,
one series per selected field in the given order, each series holding one
bar value per category row (the aggregate value of that field for that
category), the exact title "Avg. Ingredients per Wine Type", and the
height hint 600. -/
theorem create_bar_chart_grouped_series (agg : WineDF) (fs : List String)
    (hne : fs ≠ []) (hf : ∀ f ∈ fs, f ∈ agg.featureNames) :
    ∃ spec, create_bar_chart agg fs = Except.ok spec ∧
      spec.categories = agg.rows.map Row.wineType ∧
      spec.series.map Prod.fst = fs ∧
      (∀ s ∈ spec.series, s.2.length = agg.rows.length) ∧
      spec.series = fs.map (fun f =>
        (f, agg.rows.map fun r => Row.value agg.featureNames r f)) ∧
      spec.title = "Avg. Ingredients per Wine Type" ∧
      spec.height = some 600 := by
  have hfind : fs.find? (fun f => ! agg.isColumn f) = none := by
    refine List.find?_eq_none.mpr fun f hm => ?_
    simp [isColumn_of_mem (hf f hm)]
  refine ⟨{ categories := agg.rows.map Row.wineType
            series := fs.map fun f =>
              (f, agg.rows.map fun r => Row.value agg.featureNames r f)
            title := "Avg. Ingredients per Wine Type"
            height := some 600 }, ?_, rfl, ?_, ?_, rfl, rfl, rfl⟩
  · simp [create_bar_chart, hfind]
  · simp only [List.map_map, Function.comp_def, List.map_id, List.map_id']
  · intro s hs
    obtain ⟨f, _, heq⟩ := List.mem_map.mp hs
    subst heq
    simp

/-- C5 witness: the default selection of the script against the aggregate
of the concrete sample table. -/
theorem create_bar_chart_grouped_series_witness :
    (["alcohol", "malic_acid", "ash"] : List String) ≠ [] ∧
    (∀ f ∈ (["alcohol", "malic_acid", "ash"] : List String),
      f ∈ (avg_wine_df sampleDF).featureNames) ∧
    ∃ spec, create_bar_chart (avg_wine_df sampleDF) ["alcohol", "malic_acid", "ash"] =
        Except.ok spec ∧
      spec.categories = (avg_wine_df sampleDF).rows.map Row.wineType ∧
      spec.series.map Prod.fst = ["alcohol", "malic_acid", "ash"] ∧
      (∀ s ∈ spec.series, s.2.length = (avg_wine_df sampleDF).rows.length) ∧
      spec.series = (["alcohol", "malic_acid", "ash"] : List String).map (fun f =>
        (f, (avg_wine_df sampleDF).rows.map fun r =>
          Row.value (avg_wine_df sampleDF).featureNames r f)) ∧
      spec.title = "Avg. Ingredients per Wine Type" ∧
      spec.height = some 600 :=
  ⟨by decide, by decide,
    create_bar_chart_grouped_series (avg_wine_df sampleDF)
      ["alcohol", "malic_acid", "ash"] (by decide) (by decide)⟩

/-- C6: on a raw dataset whose target list matches its data rows and whose
target indices all lie below the label count, the loader keeps the
feature schema, produces one record per data row, and gives each record
its data row as feature values together with exactly the label found at
its target index in the target-name mapping; the schema is a single
frame-level list, hence identical for every record. -/
theorem load_wine_data_labels_rows (w : RawDataset)
    (hlen : w.data.length = w.target.length)
    (htgt : ∀ t ∈ w.target, t < w.target_names.length) :
    (load_wine_data_as_dataframe w).featureNames = w.feature_names ∧
    (load_wine_data_as_dataframe w).rows.length = w.data.length ∧
    ∀ i (hi : i < (load_wine_data_as_dataframe w).rows.length),
      ((load_wine_data_as_dataframe w).rows.get ⟨i, hi⟩).feats = w.data.getD i [] ∧
      ((load_wine_data_as_dataframe w).rows.get ⟨i, hi⟩).wineType =
        w.target_names.getD (w.target.getD i 0) "" ∧
      w.target.getD i 0 < w.target_names.length := by
  refine ⟨rfl, ?_, ?_⟩
  · simp [load_wine_data_as_dataframe, List.length_zipWith, hlen]
  · intro i hi
    have hlen2 : (load_wine_data_as_dataframe w).rows.length = w.data.length := by
      simp [load_wine_data_as_dataframe, List.length_zipWith, hlen]
    have hi1 : i < w.data.length := hlen2 ▸ hi
    have hi2 : i < w.target.length := hlen ▸ hi1
    have hrow : (load_wine_data_as_dataframe w).rows.get ⟨i, hi⟩ =
        { feats := w.data[i], wineType := w.target_names.getD w.target[i] "" } := by
      simp [load_wine_data_as_dataframe, List.get_eq_getElem, List.getElem_zipWith]
    have hd : w.data.getD i [] = w.data[i] := by
      simp [List.getD_eq_getElem?_getD, List.getElem?_eq_getElem hi1]
    have ht : w.target.getD i 0 = w.target[i] := by
      simp [List.getD_eq_getElem?_getD, List.getElem?_eq_getElem hi2]
    refine ⟨?_, ?_, ?_⟩
    · rw [hrow, hd]
    · rw [hrow, ht]
    · rw [ht]
      exact htgt _ (List.getElem_mem hi2)

/-- C6 witness: the concrete sample raw dataset. -/
theorem load_wine_data_labels_rows_witness :
    sampleRaw.data.length = sampleRaw.target.length ∧
    (∀ t ∈ sampleRaw.target, t < sampleRaw.target_names.length) ∧
    ((load_wine_data_as_dataframe sampleRaw).featureNames = sampleRaw.feature_names ∧
     (load_wine_data_as_dataframe sampleRaw).rows.length = sampleRaw.data.length ∧
     ∀ i (hi : i < (load_wine_data_as_dataframe sampleRaw).rows.length),
       ((load_wine_data_as_dataframe sampleRaw).rows.get ⟨i, hi⟩).feats =
         sampleRaw.data.getD i [] ∧
       ((load_wine_data_as_dataframe sampleRaw).rows.get ⟨i, hi⟩).wineType =
         sampleRaw.target_names.getD (sampleRaw.target.getD i 0) "" ∧
       sampleRaw.target.getD i 0 < sampleRaw.target_names.length) :=
  ⟨by decide, by decide,
    load_wine_data_labels_rows sampleRaw (by decide) (by decide)⟩

/-- C7: for any two valid columns, the color-encoded scatter figure tags
every point with its record's category while the plain one applies no
grouping, and the two figures agree on everything else (points and
title). -/
theorem create_scatter_chart_color_encode (df : WineDF) (x y : String)
    (hx : df.isColumn x = true) (hy : df.isColumn y = true) :
    ∃ pts t,
      create_scatter_chart df x y true =
        Except.ok { points := pts, colorTags := some (df.rows.map Row.wineType)
                    title := t } ∧
      create_scatter_chart df x y false =
        Except.ok { points := pts, colorTags := none, title := t } := by
  refine ⟨df.rows.map fun r =>
            (Row.value df.featureNames r x, Row.value df.featureNames r y),
          pyCapitalize x ++ " vs " ++ pyCapitalize y, ?_, ?_⟩ <;>
    simp [create_scatter_chart, hx, hy]

/-- C7 witness: the concrete sample table with alcohol and ash. -/
theorem create_scatter_chart_color_encode_witness :
    sampleDF.isColumn "alcohol" = true ∧ sampleDF.isColumn "ash" = true ∧
    ∃ pts t,
      create_scatter_chart sampleDF "alcohol" "ash" true =
        Except.ok { points := pts, colorTags := some (sampleDF.rows.map Row.wineType)
                    title := t } ∧
      create_scatter_chart sampleDF "alcohol" "ash" false =
        Except.ok { points := pts, colorTags := none, title := t } :=
  ⟨by decide, by decide,
    create_scatter_chart_color_encode sampleDF "alcohol" "ash" (by decide) (by decide)⟩

end PlotyDashboard
